import Mathlib

/-!
Verification of the conversion-table catalog (`docs/plugins/conversion_table.py`).

The source file declares a dataclass `Row` and a literal list `table : list[Row]`
of 190 rows describing, for each target field type, which input representations
are coerced into it, under which strictness mode and channel, together with
optional conditions, example values and the implementing core-schema kinds.

The embedding below mirrors that data model.  Python type objects and string
markers that occur in the `field_type` / `input_type` positions are represented
by `TypeRef` (a type object is referred to by its source spelling, a string
marker keeps its text).  The `mode` and `input_format` fields are annotated
`Literal[...]` in the source, but Python does not enforce `Literal` at run
time, so they are embedded as plain strings carrying exactly the source text;
the annotated enumerations themselves are recorded in `modeLiterals` and
`formatLiterals`.  Example values are represented by the `Value` inductive,
one constructor per kind of literal occurring in the table, and `pyEq` models
Python `==` on those values (including the numeric cross-type equalities
`True == 1`, `2 == 2.0`, `Decimal(2) == 2`, bytes/bytearray content equality,
and `nan != nan`).
-/

namespace ConversionTable

/-- Reference to a Python type (or type-like callable) by its source spelling,
or a string marker such as `Array` / `Object` used for wire-only shapes. -/
inductive TypeRef where
  | ty (name : String)
  | marker (s : String)
deriving DecidableEq

/-- The identifier text of a `TypeRef`. -/
def TypeRef.text : TypeRef → String
  | .ty name => name
  | .marker s => s

/-- The enumeration annotated on `Row.mode` in the source:
`Literal['Lax', 'Strict']`. -/
def modeLiterals : List String := ["Lax", "Strict"]

/-- The enumeration annotated on `Row.input_format` in the source:
`Literal['Python', 'JSON', 'Python & JSON']`. -/
def formatLiterals : List String := ["Python", "JSON", "Python & JSON"]

/-- The argument of a `Decimal(...)` literal: in the table it is always an
int or a float literal. -/
inductive DecLit where
  | int (n : Int)
  | float (lit : String)
deriving DecidableEq

/-- An example value occurring in `valid_examples` / `invalid_examples`:
one constructor per kind of Python literal used in the table. -/
inductive Value where
  | str (s : String)
  | bytes (bs : List Nat)
  | bytearr (bs : List Nat)
  | int (n : Int)
  | float (lit : String)
  | bool (b : Bool)
  | dec (d : DecLit)
  | date (y m d : Nat)
  | datetime (y m d h : Nat)
  | pair (a b : Value)
deriving DecidableEq

/-- Byte string of an ASCII text literal (`b'...'`). -/
def ascii (s : String) : List Nat := s.toList.map Char.toNat

/-- `n`-fold repetition of a byte string (Python `b'...' * n`). -/
def flatRep (n : Nat) (l : List Nat) : List Nat := (List.replicate n l).flatten

/-- The decimal literal denoting the float equal to the integer `n`
(Python prints such floats as `n.0`). -/
def floatLitOfInt (n : Int) : String := toString n ++ ".0"

/-- Whether a float literal denotes exactly the integer `n`. -/
def numEqIF (n : Int) (lit : String) : Bool := lit == floatLitOfInt n

/-- The integer a `Bool` compares equal to in Python (`True == 1`). -/
def boolToInt (b : Bool) : Int := if b then 1 else 0

/-- Python `==` on `Decimal` arguments: `Decimal(2.0) == Decimal(2)`. -/
def decLitEq : DecLit → DecLit → Bool
  | .int n, .int m => n == m
  | .float l, .float l' => if l == "nan" then false else l == l'
  | .int n, .float l => numEqIF n l
  | .float l, .int n => numEqIF n l

/-- Python `==` between a `Decimal(d)` value and another value:
`Decimal` compares numerically with ints, floats and bools. -/
def decLitEqValue (d : DecLit) : Value → Bool
  | .int n => decLitEq d (.int n)
  | .float l => decLitEq d (.float l)
  | .bool b => decLitEq d (.int (boolToInt b))
  | .dec d' => decLitEq d d'
  | _ => false

/-- Python `==` on example values.  Structural equality extended with the
numeric cross-type equalities Python has (`True == 1`, `2 == 2.0`,
`Decimal(x) == x`), content equality of `bytes` and `bytearray`, and
`float('nan') != float('nan')`.  Float literals are compared as source
literals: all float literals in the table denote pairwise distinct doubles. -/
def pyEq : Value → Value → Bool
  | .dec d, b => decLitEqValue d b
  | a, .dec d => decLitEqValue d a
  | .str a, .str b => a == b
  | .bytes a, .bytes b => a == b
  | .bytearr a, .bytearr b => a == b
  | .bytes a, .bytearr b => a == b
  | .bytearr a, .bytes b => a == b
  | .int a, .int b => a == b
  | .bool a, .bool b => a == b
  | .bool a, .int b => boolToInt a == b
  | .int a, .bool b => a == boolToInt b
  | .float a, .float b => if a == "nan" then false else a == b
  | .int a, .float b => numEqIF a b
  | .float a, .int b => numEqIF b a
  | .bool a, .float b => numEqIF (boolToInt a) b
  | .float a, .bool b => numEqIF (boolToInt b) a
  | .date y m d, .date y' m' d' => y == y' && m == m' && d == d'
  | .datetime y m d h, .datetime y' m' d' h' => y == y' && m == m' && d == d' && h == h'
  | .pair a b, .pair a' b' => pyEq a a' && pyEq b b'
  | _, _ => false

/-- Python `v in l` on example values. -/
def pyMem (v : Value) (l : List Value) : Bool := l.any (pyEq v)

/-- The `Row` dataclass of the source: one entry of the conversion table.
`mode` and `input_format` carry the source strings (their `Literal`
annotations are recorded in `modeLiterals` / `formatLiterals`). -/
structure Row where
  field_type : TypeRef
  input_type : TypeRef
  mode : String
  input_format : String
  condition : Option String := none
  valid_examples : Option (List Value) := none
  invalid_examples : Option (List Value) := none
  core_schemas : Option (List String) := none
deriving DecidableEq

end ConversionTable
namespace ConversionTable

/-- Rows 0 to 23 of the source `table` literal (0-based, source order). -/
def tablePart1 : List Row := [
  { field_type := .ty "str",
    input_type := .ty "str",
    mode := "Strict",
    input_format := "Python & JSON",
    core_schemas := some ["core_schema.StringSchema"] },
  { field_type := .ty "str",
    input_type := .ty "bytes",
    mode := "Lax",
    input_format := "Python",
    condition := some "Assumes UTF-8, error on unicode decoding error.",
    valid_examples := some [.bytes (ascii "this is bytes")],
    invalid_examples := some [.bytes [129]],
    core_schemas := some ["core_schema.StringSchema"] },
  { field_type := .ty "str",
    input_type := .ty "bytearray",
    mode := "Lax",
    input_format := "Python",
    condition := some "Assumes UTF-8, error on unicode decoding error.",
    valid_examples := some [.bytearr (flatRep 3 (ascii "this is bytearray"))],
    invalid_examples := some [.bytearr (flatRep 5 [129])],
    core_schemas := some ["core_schema.StringSchema"] },
  { field_type := .ty "bytes",
    input_type := .ty "bytes",
    mode := "Strict",
    input_format := "Python",
    core_schemas := some ["core_schema.BytesSchema"] },
  { field_type := .ty "bytes",
    input_type := .ty "str",
    mode := "Strict",
    input_format := "JSON",
    valid_examples := some [.str "foo"],
    core_schemas := some ["core_schema.BytesSchema"] },
  { field_type := .ty "bytes",
    input_type := .ty "str",
    mode := "Lax",
    input_format := "Python",
    valid_examples := some [.str "foo"],
    core_schemas := some ["core_schema.BytesSchema"] },
  { field_type := .ty "bytes",
    input_type := .ty "bytearray",
    mode := "Lax",
    input_format := "Python",
    valid_examples := some [.bytearr (flatRep 3 (ascii "this is bytearray"))],
    core_schemas := some ["core_schema.BytesSchema"] },
  { field_type := .ty "int",
    input_type := .ty "int",
    mode := "Strict",
    input_format := "Python & JSON",
    condition := some "Max abs value `2^64` - `i64` is used internally, `bool` explicitly forbidden.",
    invalid_examples := some [.int 18446744073709551616, .bool true, .bool false],
    core_schemas := some ["core_schema.IntSchema"] },
  { field_type := .ty "int",
    input_type := .ty "int",
    mode := "Lax",
    input_format := "Python & JSON",
    condition := some "`i64`. Limits `numbers > (2 ^ 63) - 1` to `(2 ^ 63) - 1`.",
    core_schemas := some ["core_schema.IntSchema"] },
  { field_type := .ty "int",
    input_type := .ty "float",
    mode := "Lax",
    input_format := "Python & JSON",
    condition := some "`i64`, Must be exact int, e.g. `val % 1 == 0`, raises error for `nan`, `inf`.",
    valid_examples := some [.float "2.0"],
    invalid_examples := some [.float "2.1", .float "inf", .float "nan", .float "inf"],
    core_schemas := some ["core_schema.IntSchema"] },
  { field_type := .ty "int",
    input_type := .ty "Decimal",
    mode := "Lax",
    input_format := "Python",
    condition := some "`i64`, Must be exact int, e.g. `val % 1 == 0`.",
    valid_examples := some [.dec (.float "2.0")],
    invalid_examples := some [.dec (.float "2.1")],
    core_schemas := some ["core_schema.IntSchema"] },
  { field_type := .ty "int",
    input_type := .ty "bool",
    mode := "Lax",
    input_format := "Python & JSON",
    valid_examples := some [.bool true, .bool false],
    core_schemas := some ["core_schema.IntSchema"] },
  { field_type := .ty "int",
    input_type := .ty "str",
    mode := "Lax",
    input_format := "Python & JSON",
    condition := some "`i64`, Must be numeric only, e.g. `[0-9]+`.",
    valid_examples := some [.str "123"],
    invalid_examples := some [.str "test", .str "123x"],
    core_schemas := some ["core_schema.IntSchema"] },
  { field_type := .ty "int",
    input_type := .ty "bytes",
    mode := "Lax",
    input_format := "Python",
    condition := some "`i64`, Must be numeric only, e.g. `[0-9]+`.",
    valid_examples := some [.bytes (ascii "123")],
    invalid_examples := some [.bytes (ascii "test"), .bytes (ascii "123x")],
    core_schemas := some ["core_schema.IntSchema"] },
  { field_type := .ty "float",
    input_type := .ty "float",
    mode := "Strict",
    input_format := "Python & JSON",
    condition := some "`bool` explicitly forbidden.",
    invalid_examples := some [.bool true, .bool false],
    core_schemas := some ["core_schema.FloatSchema"] },
  { field_type := .ty "float",
    input_type := .ty "int",
    mode := "Strict",
    input_format := "Python & JSON",
    valid_examples := some [.int 123],
    core_schemas := some ["core_schema.FloatSchema"] },
  { field_type := .ty "float",
    input_type := .ty "str",
    mode := "Lax",
    input_format := "Python & JSON",
    condition := some "Must match `[0-9]+(\\.[0-9]+)?`.",
    valid_examples := some [.str "3.141"],
    invalid_examples := some [.str "test", .str "3.141x"],
    core_schemas := some ["core_schema.FloatSchema"] },
  { field_type := .ty "float",
    input_type := .ty "bytes",
    mode := "Lax",
    input_format := "Python",
    condition := some "Must match `[0-9]+(\\.[0-9]+)?`.",
    valid_examples := some [.bytes (ascii "3.141")],
    invalid_examples := some [.bytes (ascii "test"), .bytes (ascii "3.141x")],
    core_schemas := some ["core_schema.FloatSchema"] },
  { field_type := .ty "float",
    input_type := .ty "Decimal",
    mode := "Lax",
    input_format := "Python",
    valid_examples := some [.dec (.float "3.5")],
    core_schemas := some ["core_schema.FloatSchema"] },
  { field_type := .ty "float",
    input_type := .ty "bool",
    mode := "Lax",
    input_format := "Python & JSON",
    valid_examples := some [.bool true, .bool false],
    core_schemas := some ["core_schema.FloatSchema"] },
  { field_type := .ty "bool",
    input_type := .ty "bool",
    mode := "Strict",
    input_format := "Python & JSON",
    valid_examples := some [.bool true, .bool false],
    core_schemas := some ["core_schema.BoolSchema"] },
  { field_type := .ty "bool",
    input_type := .ty "int",
    mode := "Lax",
    input_format := "Python & JSON",
    condition := some "Allowed values: `0, 1`.",
    valid_examples := some [.int 0, .int 1],
    invalid_examples := some [.int 2, .int 100],
    core_schemas := some ["core_schema.BoolSchema"] },
  { field_type := .ty "bool",
    input_type := .ty "float",
    mode := "Lax",
    input_format := "Python & JSON",
    condition := some "Allowed values: `0.0, 1.0`.",
    valid_examples := some [.float "0.0", .float "1.0"],
    invalid_examples := some [.float "2.0", .float "100.0"],
    core_schemas := some ["core_schema.BoolSchema"] },
  { field_type := .ty "bool",
    input_type := .ty "Decimal",
    mode := "Lax",
    input_format := "Python",
    condition := some "Allowed values: `Decimal(0), Decimal(1)`.",
    valid_examples := some [.dec (.int 0), .dec (.int 1)],
    invalid_examples := some [.dec (.int 2), .dec (.int 100)],
    core_schemas := some ["core_schema.BoolSchema"] }
]

/-- Rows 24 to 47 of the source `table` literal (0-based, source order). -/
def tablePart2 : List Row := [
  { field_type := .ty "bool",
    input_type := .ty "str",
    mode := "Lax",
    input_format := "Python & JSON",
    condition := some "Allowed values: `\x27f\x27`, `\x27n\x27`, `\x27no\x27`, `\x27off\x27`, `\x27false\x27`, `\x27False\x27`, `\x27t\x27`, `\x27y\x27`, `\x27on\x27`, `\x27yes\x27`, `\x27true\x27`, `\x27True\x27`.",
    valid_examples := some [.str "f", .str "n", .str "no", .str "off", .str "false", .str "False", .str "t", .str "y", .str "on", .str "yes", .str "true", .str "True"],
    invalid_examples := some [.str "test"],
    core_schemas := some ["core_schema.BoolSchema"] },
  { field_type := .ty "None",
    input_type := .ty "None",
    mode := "Strict",
    input_format := "Python & JSON",
    core_schemas := some ["core_schema.NoneSchema"] },
  { field_type := .ty "date",
    input_type := .ty "date",
    mode := "Strict",
    input_format := "Python",
    core_schemas := some ["core_schema.DateSchema"] },
  { field_type := .ty "date",
    input_type := .ty "datetime",
    mode := "Lax",
    input_format := "Python",
    condition := some "Must be exact date, eg. no `H`, `M`, `S`, `f`.",
    valid_examples := some [.datetime 2017 5 5 0],
    invalid_examples := some [.datetime 2017 5 5 10],
    core_schemas := some ["core_schema.DateSchema"] },
  { field_type := .ty "date",
    input_type := .ty "str",
    mode := "Lax",
    input_format := "Python & JSON",
    condition := some "Format: `YYYY-MM-DD`.",
    valid_examples := some [.str "2017-05-05"],
    invalid_examples := some [.str "2017-5-5", .str "2017/05/05"],
    core_schemas := some ["core_schema.DateSchema"] },
  { field_type := .ty "date",
    input_type := .ty "bytes",
    mode := "Lax",
    input_format := "Python",
    condition := some "Format: `YYYY-MM-DD` (UTF-8).",
    valid_examples := some [.bytes (ascii "2017-05-05")],
    invalid_examples := some [.bytes (ascii "2017-5-5"), .bytes (ascii "2017/05/05")],
    core_schemas := some ["core_schema.DateSchema"] },
  { field_type := .ty "date",
    input_type := .ty "int",
    mode := "Lax",
    input_format := "Python & JSON",
    condition := some "Interpreted as seconds or ms from epoch. See [speedate](https://docs.rs/speedate/latest/speedate/). Must be exact date.",
    valid_examples := some [.int 1493942400000, .int 1493942400],
    invalid_examples := some [.int 1493942401000],
    core_schemas := some ["core_schema.DateSchema"] },
  { field_type := .ty "date",
    input_type := .ty "float",
    mode := "Lax",
    input_format := "Python & JSON",
    condition := some "Interpreted as seconds or ms from epoch. See [speedate](https://docs.rs/speedate/latest/speedate/). Must be exact date.",
    valid_examples := some [.float "1493942400000.0", .float "1493942400.0"],
    invalid_examples := some [.float "1493942401000.0"],
    core_schemas := some ["core_schema.DateSchema"] },
  { field_type := .ty "date",
    input_type := .ty "Decimal",
    mode := "Lax",
    input_format := "Python",
    condition := some "Interpreted as seconds or ms from epoch. See [speedate](https://docs.rs/speedate/latest/speedate/). Must be exact date.",
    valid_examples := some [.dec (.int 1493942400000), .dec (.int 1493942400)],
    invalid_examples := some [.dec (.int 1493942401000)],
    core_schemas := some ["core_schema.DateSchema"] },
  { field_type := .ty "datetime",
    input_type := .ty "datetime",
    mode := "Strict",
    input_format := "Python",
    core_schemas := some ["core_schema.DatetimeSchema"] },
  { field_type := .ty "datetime",
    input_type := .ty "date",
    mode := "Lax",
    input_format := "Python",
    valid_examples := some [.date 2017 5 5],
    core_schemas := some ["core_schema.DatetimeSchema"] },
  { field_type := .ty "datetime",
    input_type := .ty "str",
    mode := "Lax",
    input_format := "Python & JSON",
    condition := some "Format: `YYYY-MM-DDTHH:MM:SS.f`. See [speedate](https://docs.rs/speedate/latest/speedate/).",
    valid_examples := some [.str "2017-05-05 10:10:10", .str "2017-05-05T10:10:10.0002", .str "2017-05-05 10:10:10+00:00"],
    invalid_examples := some [.str "2017-5-5T10:10:10"],
    core_schemas := some ["core_schema.DatetimeSchema"] },
  { field_type := .ty "datetime",
    input_type := .ty "bytes",
    mode := "Lax",
    input_format := "Python",
    condition := some "Format: `YYYY-MM-DDTHH:MM:SS.f`. See [speedate](https://docs.rs/speedate/latest/speedate/), (UTF-8).",
    valid_examples := some [.bytes (ascii "2017-05-05 10:10:10"), .bytes (ascii "2017-05-05T10:10:10.0002"), .bytes (ascii "2017-05-05 10:10:10+00:00")],
    invalid_examples := some [.bytes (ascii "2017-5-5T10:10:10")],
    core_schemas := some ["core_schema.DatetimeSchema"] },
  { field_type := .ty "datetime",
    input_type := .ty "int",
    mode := "Lax",
    input_format := "Python & JSON",
    condition := some "Interpreted as seconds or ms from epoch, see [speedate](https://docs.rs/speedate/latest/speedate/).",
    valid_examples := some [.int 1493979010000, .int 1493979010],
    core_schemas := some ["core_schema.DatetimeSchema"] },
  { field_type := .ty "datetime",
    input_type := .ty "float",
    mode := "Lax",
    input_format := "Python & JSON",
    condition := some "Interpreted as seconds or ms from epoch, see [speedate](https://docs.rs/speedate/latest/speedate/).",
    valid_examples := some [.float "1493979010000.0", .float "1493979010.0"],
    core_schemas := some ["core_schema.DatetimeSchema"] },
  { field_type := .ty "datetime",
    input_type := .ty "Decimal",
    mode := "Lax",
    input_format := "Python",
    condition := some "Interpreted as seconds or ms from epoch, see [speedate](https://docs.rs/speedate/latest/speedate/).",
    valid_examples := some [.dec (.int 1493979010000), .dec (.int 1493979010)],
    core_schemas := some ["core_schema.DatetimeSchema"] },
  { field_type := .ty "time",
    input_type := .ty "time",
    mode := "Strict",
    input_format := "Python",
    core_schemas := some ["core_schema.TimeSchema"] },
  { field_type := .ty "time",
    input_type := .ty "str",
    mode := "Lax",
    input_format := "Python & JSON",
    condition := some "Format: `HH:MM:SS.FFFFFF`. See [speedate](https://docs.rs/speedate/latest/speedate/).",
    valid_examples := some [.str "10:10:10.0002"],
    invalid_examples := some [.str "1:1:1"],
    core_schemas := some ["core_schema.TimeSchema"] },
  { field_type := .ty "time",
    input_type := .ty "bytes",
    mode := "Lax",
    input_format := "Python",
    condition := some "Format: `HH:MM:SS.FFFFFF`. See [speedate](https://docs.rs/speedate/latest/speedate/).",
    valid_examples := some [.bytes (ascii "10:10:10.0002")],
    invalid_examples := some [.bytes (ascii "1:1:1")],
    core_schemas := some ["core_schema.TimeSchema"] },
  { field_type := .ty "time",
    input_type := .ty "int",
    mode := "Lax",
    input_format := "Python & JSON",
    condition := some "Interpreted as seconds, range `0 - 86399`.",
    valid_examples := some [.int 3720],
    invalid_examples := some [.int (-1), .int 86400],
    core_schemas := some ["core_schema.TimeSchema"] },
  { field_type := .ty "time",
    input_type := .ty "float",
    mode := "Lax",
    input_format := "Python & JSON",
    condition := some "Interpreted as seconds, range `0 - 86399.9*`.",
    valid_examples := some [.float "3720.0002"],
    invalid_examples := some [.float "-1.0", .float "86400.0"],
    core_schemas := some ["core_schema.TimeSchema"] },
  { field_type := .ty "time",
    input_type := .ty "Decimal",
    mode := "Lax",
    input_format := "Python",
    condition := some "Interpreted as seconds, range `0 - 86399.9*`.",
    valid_examples := some [.dec (.float "3720.0002")],
    invalid_examples := some [.dec (.int (-1)), .dec (.int 86400)],
    core_schemas := some ["core_schema.TimeSchema"] },
  { field_type := .ty "timedelta",
    input_type := .ty "timedelta",
    mode := "Strict",
    input_format := "Python",
    core_schemas := some ["core_schema.TimedeltaSchema"] },
  { field_type := .ty "timedelta",
    input_type := .ty "str",
    mode := "Lax",
    input_format := "Python & JSON",
    condition := some "Format: `ISO8601`. See [speedate](https://docs.rs/speedate/latest/speedate/).",
    valid_examples := some [.str "1 days 10:10", .str "1 d 10:10"],
    invalid_examples := some [.str "1 10:10"],
    core_schemas := some ["core_schema.TimedeltaSchema"] }
]

/-- Rows 48 to 71 of the source `table` literal (0-based, source order). -/
def tablePart3 : List Row := [
  { field_type := .ty "timedelta",
    input_type := .ty "bytes",
    mode := "Lax",
    input_format := "Python",
    condition := some "Format: `ISO8601`. See [speedate](https://docs.rs/speedate/latest/speedate/), (UTF-8).",
    valid_examples := some [.bytes (ascii "1 days 10:10"), .bytes (ascii "1 d 10:10")],
    invalid_examples := some [.bytes (ascii "1 10:10")],
    core_schemas := some ["core_schema.TimedeltaSchema"] },
  { field_type := .ty "timedelta",
    input_type := .ty "int",
    mode := "Lax",
    input_format := "Python & JSON",
    condition := some "Interpreted as seconds.",
    valid_examples := some [.int 123000],
    core_schemas := some ["core_schema.TimedeltaSchema"] },
  { field_type := .ty "timedelta",
    input_type := .ty "float",
    mode := "Lax",
    input_format := "Python & JSON",
    condition := some "Interpreted as seconds.",
    valid_examples := some [.float "123000.0002"],
    core_schemas := some ["core_schema.TimedeltaSchema"] },
  { field_type := .ty "timedelta",
    input_type := .ty "Decimal",
    mode := "Lax",
    input_format := "Python",
    condition := some "Interpreted as seconds.",
    valid_examples := some [.dec (.float "123000.0002")],
    core_schemas := some ["core_schema.TimedeltaSchema"] },
  { field_type := .ty "dict",
    input_type := .ty "dict",
    mode := "Strict",
    input_format := "Python",
    core_schemas := some ["core_schema.DictSchema"] },
  { field_type := .ty "dict",
    input_type := .marker "Object",
    mode := "Strict",
    input_format := "JSON",
    valid_examples := some [.str "\x7b\"v\": \x7b\"1\": 1, \"2\": 2\x7d\x7d"],
    core_schemas := some ["core_schema.DictSchema"] },
  { field_type := .ty "dict",
    input_type := .ty "Mapping",
    mode := "Lax",
    input_format := "Python",
    condition := some "Must implement the mapping interface and have an `items()` method.",
    valid_examples := some [],
    core_schemas := some ["core_schema.DictSchema"] },
  { field_type := .ty "TypedDict",
    input_type := .ty "dict",
    mode := "Strict",
    input_format := "Python",
    core_schemas := some ["core_schema.TypedDictSchema"] },
  { field_type := .ty "TypedDict",
    input_type := .marker "Object",
    mode := "Strict",
    input_format := "JSON",
    core_schemas := some ["core_schema.TypedDictSchema"] },
  { field_type := .ty "TypedDict",
    input_type := .ty "Any",
    mode := "Strict",
    input_format := "Python",
    core_schemas := some ["core_schema.TypedDictSchema"] },
  { field_type := .ty "TypedDict",
    input_type := .ty "Mapping",
    mode := "Lax",
    input_format := "Python",
    condition := some "Must implement the mapping interface and have an `items()` method.",
    valid_examples := some [],
    core_schemas := some ["core_schema.TypedDictSchema"] },
  { field_type := .ty "list",
    input_type := .ty "list",
    mode := "Strict",
    input_format := "Python",
    core_schemas := some ["core_schema.ListSchema"] },
  { field_type := .ty "list",
    input_type := .marker "Array",
    mode := "Strict",
    input_format := "JSON",
    core_schemas := some ["core_schema.ListSchema"] },
  { field_type := .ty "list",
    input_type := .ty "tuple",
    mode := "Lax",
    input_format := "Python",
    core_schemas := some ["core_schema.ListSchema"] },
  { field_type := .ty "list",
    input_type := .ty "set",
    mode := "Lax",
    input_format := "Python",
    core_schemas := some ["core_schema.ListSchema"] },
  { field_type := .ty "list",
    input_type := .ty "frozenset",
    mode := "Lax",
    input_format := "Python",
    core_schemas := some ["core_schema.ListSchema"] },
  { field_type := .ty "list",
    input_type := .ty "deque",
    mode := "Lax",
    input_format := "Python",
    core_schemas := some ["core_schema.ListSchema"] },
  { field_type := .ty "list",
    input_type := .marker "dict_keys",
    mode := "Lax",
    input_format := "Python",
    core_schemas := some ["core_schema.ListSchema"] },
  { field_type := .ty "list",
    input_type := .marker "dict_values",
    mode := "Lax",
    input_format := "Python",
    core_schemas := some ["core_schema.ListSchema"] },
  { field_type := .ty "tuple",
    input_type := .ty "tuple",
    mode := "Strict",
    input_format := "Python",
    core_schemas := some ["core_schema.TuplePositionalSchema", "core_schema.TupleVariableSchema"] },
  { field_type := .ty "tuple",
    input_type := .marker "Array",
    mode := "Strict",
    input_format := "JSON",
    core_schemas := some ["core_schema.TuplePositionalSchema", "core_schema.TupleVariableSchema"] },
  { field_type := .ty "tuple",
    input_type := .ty "list",
    mode := "Lax",
    input_format := "Python",
    core_schemas := some ["core_schema.TuplePositionalSchema", "core_schema.TupleVariableSchema"] },
  { field_type := .ty "tuple",
    input_type := .ty "set",
    mode := "Lax",
    input_format := "Python",
    core_schemas := some ["core_schema.TuplePositionalSchema", "core_schema.TupleVariableSchema"] },
  { field_type := .ty "tuple",
    input_type := .ty "frozenset",
    mode := "Lax",
    input_format := "Python",
    core_schemas := some ["core_schema.TuplePositionalSchema", "core_schema.TupleVariableSchema"] }
]

/-- Rows 72 to 95 of the source `table` literal (0-based, source order). -/
def tablePart4 : List Row := [
  { field_type := .ty "tuple",
    input_type := .ty "deque",
    mode := "Lax",
    input_format := "Python",
    core_schemas := some ["core_schema.TuplePositionalSchema", "core_schema.TupleVariableSchema"] },
  { field_type := .ty "tuple",
    input_type := .marker "dict_keys",
    mode := "Lax",
    input_format := "Python",
    core_schemas := some ["core_schema.TuplePositionalSchema", "core_schema.TupleVariableSchema"] },
  { field_type := .ty "tuple",
    input_type := .marker "dict_values",
    mode := "Lax",
    input_format := "Python",
    core_schemas := some ["core_schema.TuplePositionalSchema", "core_schema.TupleVariableSchema"] },
  { field_type := .ty "set",
    input_type := .ty "set",
    mode := "Strict",
    input_format := "Python",
    core_schemas := some ["core_schema.SetSchema"] },
  { field_type := .ty "set",
    input_type := .marker "Array",
    mode := "Strict",
    input_format := "JSON",
    core_schemas := some ["core_schema.SetSchema"] },
  { field_type := .ty "set",
    input_type := .ty "list",
    mode := "Lax",
    input_format := "Python",
    core_schemas := some ["core_schema.SetSchema"] },
  { field_type := .ty "set",
    input_type := .ty "tuple",
    mode := "Lax",
    input_format := "Python",
    core_schemas := some ["core_schema.SetSchema"] },
  { field_type := .ty "set",
    input_type := .ty "frozenset",
    mode := "Lax",
    input_format := "Python",
    core_schemas := some ["core_schema.SetSchema"] },
  { field_type := .ty "set",
    input_type := .ty "deque",
    mode := "Lax",
    input_format := "Python",
    core_schemas := some ["core_schema.SetSchema"] },
  { field_type := .ty "set",
    input_type := .marker "dict_keys",
    mode := "Lax",
    input_format := "Python",
    core_schemas := some ["core_schema.SetSchema"] },
  { field_type := .ty "set",
    input_type := .marker "dict_values",
    mode := "Lax",
    input_format := "Python",
    core_schemas := some ["core_schema.SetSchema"] },
  { field_type := .ty "frozenset",
    input_type := .ty "frozenset",
    mode := "Strict",
    input_format := "Python",
    core_schemas := some ["core_schema.FrozenSetSchema"] },
  { field_type := .ty "frozenset",
    input_type := .marker "Array",
    mode := "Strict",
    input_format := "JSON",
    core_schemas := some ["core_schema.FrozenSetSchema"] },
  { field_type := .ty "frozenset",
    input_type := .ty "list",
    mode := "Lax",
    input_format := "Python",
    core_schemas := some ["core_schema.FrozenSetSchema"] },
  { field_type := .ty "frozenset",
    input_type := .ty "tuple",
    mode := "Lax",
    input_format := "Python",
    core_schemas := some ["core_schema.FrozenSetSchema"] },
  { field_type := .ty "frozenset",
    input_type := .ty "set",
    mode := "Lax",
    input_format := "Python",
    core_schemas := some ["core_schema.FrozenSetSchema"] },
  { field_type := .ty "frozenset",
    input_type := .ty "deque",
    mode := "Lax",
    input_format := "Python",
    core_schemas := some ["core_schema.FrozenSetSchema"] },
  { field_type := .ty "frozenset",
    input_type := .marker "dict_keys",
    mode := "Lax",
    input_format := "Python",
    core_schemas := some ["core_schema.FrozenSetSchema"] },
  { field_type := .ty "frozenset",
    input_type := .marker "dict_values",
    mode := "Lax",
    input_format := "Python",
    core_schemas := some ["core_schema.FrozenSetSchema"] },
  { field_type := .ty "isinstance",
    input_type := .ty "Any",
    mode := "Strict",
    input_format := "Python",
    condition := some "`isinstance()` check returns `True`.",
    core_schemas := some ["core_schema.IsInstanceSchema"] },
  { field_type := .ty "isinstance",
    input_type := .marker "-",
    mode := "Strict",
    input_format := "JSON",
    condition := some "Never valid.",
    core_schemas := some ["core_schema.IsInstanceSchema"] },
  { field_type := .ty "callable",
    input_type := .ty "Any",
    mode := "Strict",
    input_format := "Python",
    condition := some "`callable()` check returns `True`.",
    core_schemas := some ["core_schema.CallableSchema"] },
  { field_type := .ty "callable",
    input_type := .marker "",
    mode := "Strict",
    input_format := "JSON",
    condition := some "Never valid.",
    core_schemas := some ["core_schema.CallableSchema"] },
  { field_type := .ty "deque",
    input_type := .ty "deque",
    mode := "Strict",
    input_format := "Python",
    core_schemas := some ["core_schema.WrapValidatorFunctionSchema"] }
]

/-- Rows 96 to 119 of the source `table` literal (0-based, source order). -/
def tablePart5 : List Row := [
  { field_type := .ty "deque",
    input_type := .marker "Array",
    mode := "Strict",
    input_format := "Json",
    core_schemas := some ["core_schema.WrapValidatorFunctionSchema"] },
  { field_type := .ty "deque",
    input_type := .ty "list",
    mode := "Lax",
    input_format := "Python",
    core_schemas := some ["core_schema.ChainSchema"] },
  { field_type := .ty "deque",
    input_type := .ty "tuple",
    mode := "Lax",
    input_format := "Python",
    core_schemas := some ["core_schema.ChainSchema"] },
  { field_type := .ty "deque",
    input_type := .ty "set",
    mode := "Lax",
    input_format := "Python",
    core_schemas := some ["core_schema.ChainSchema"] },
  { field_type := .ty "deque",
    input_type := .ty "frozenset",
    mode := "Lax",
    input_format := "Python",
    core_schemas := some ["core_schema.ChainSchema"] },
  { field_type := .ty "Any",
    input_type := .ty "Any",
    mode := "Strict",
    input_format := "Python & JSON",
    core_schemas := some ["core_schema.AnySchema"] },
  { field_type := .ty "typing.NamedTuple",
    input_type := .ty "typing.NamedTuple",
    mode := "Strict",
    input_format := "Python",
    core_schemas := some ["core_schema.CallSchema"] },
  { field_type := .ty "typing.NamedTuple",
    input_type := .marker "Array",
    mode := "Strict",
    input_format := "JSON",
    core_schemas := some ["core_schema.CallSchema"] },
  { field_type := .ty "typing.NamedTuple",
    input_type := .ty "collections.namedtuple",
    mode := "Strict",
    input_format := "Python",
    core_schemas := some ["core_schema.CallSchema"] },
  { field_type := .ty "typing.NamedTuple",
    input_type := .ty "tuple",
    mode := "Strict",
    input_format := "Python",
    core_schemas := some ["core_schema.CallSchema"] },
  { field_type := .ty "typing.NamedTuple",
    input_type := .ty "list",
    mode := "Strict",
    input_format := "Python",
    core_schemas := some ["core_schema.CallSchema"] },
  { field_type := .ty "typing.NamedTuple",
    input_type := .ty "dict",
    mode := "Strict",
    input_format := "Python",
    core_schemas := some ["core_schema.CallSchema"] },
  { field_type := .ty "collections.namedtuple",
    input_type := .ty "collections.namedtuple",
    mode := "Strict",
    input_format := "Python",
    core_schemas := some ["core_schema.CallSchema"] },
  { field_type := .ty "collections.namedtuple",
    input_type := .marker "Array",
    mode := "Strict",
    input_format := "JSON",
    core_schemas := some ["core_schema.CallSchema"] },
  { field_type := .ty "collections.namedtuple",
    input_type := .ty "typing.NamedTuple",
    mode := "Strict",
    input_format := "Python",
    core_schemas := some ["core_schema.CallSchema"] },
  { field_type := .ty "collections.namedtuple",
    input_type := .ty "tuple",
    mode := "Strict",
    input_format := "Python",
    core_schemas := some ["core_schema.CallSchema"] },
  { field_type := .ty "collections.namedtuple",
    input_type := .ty "list",
    mode := "Strict",
    input_format := "Python",
    core_schemas := some ["core_schema.CallSchema"] },
  { field_type := .ty "collections.namedtuple",
    input_type := .ty "dict",
    mode := "Strict",
    input_format := "Python",
    core_schemas := some ["core_schema.CallSchema"] },
  { field_type := .ty "Sequence",
    input_type := .ty "list",
    mode := "Strict",
    input_format := "Python",
    core_schemas := some ["core_schema.ChainSchema"] },
  { field_type := .ty "Sequence",
    input_type := .marker "Array",
    mode := "Strict",
    input_format := "JSON",
    core_schemas := some ["core_schema.ChainSchema"] },
  { field_type := .ty "Sequence",
    input_type := .ty "tuple",
    mode := "Lax",
    input_format := "Python",
    core_schemas := some ["core_schema.ChainSchema"] },
  { field_type := .ty "Sequence",
    input_type := .ty "deque",
    mode := "Lax",
    input_format := "Python",
    core_schemas := some ["core_schema.ChainSchema"] },
  { field_type := .ty "Iterable",
    input_type := .ty "list",
    mode := "Strict",
    input_format := "Python",
    core_schemas := some ["core_schema.GeneratorSchema"] },
  { field_type := .ty "Iterable",
    input_type := .marker "Array",
    mode := "Strict",
    input_format := "JSON",
    core_schemas := some ["core_schema.GeneratorSchema"] }
]

/-- Rows 120 to 143 of the source `table` literal (0-based, source order). -/
def tablePart6 : List Row := [
  { field_type := .ty "Iterable",
    input_type := .ty "tuple",
    mode := "Strict",
    input_format := "Python",
    core_schemas := some ["core_schema.GeneratorSchema"] },
  { field_type := .ty "Iterable",
    input_type := .ty "set",
    mode := "Strict",
    input_format := "Python",
    core_schemas := some ["core_schema.GeneratorSchema"] },
  { field_type := .ty "Iterable",
    input_type := .ty "frozenset",
    mode := "Strict",
    input_format := "Python",
    core_schemas := some ["core_schema.GeneratorSchema"] },
  { field_type := .ty "Iterable",
    input_type := .ty "deque",
    mode := "Strict",
    input_format := "Python",
    core_schemas := some ["core_schema.GeneratorSchema"] },
  { field_type := .ty "Type",
    input_type := .ty "Type",
    mode := "Strict",
    input_format := "Python",
    core_schemas := some ["core_schema.IsSubclassSchema"] },
  { field_type := .ty "Pattern",
    input_type := .ty "str",
    mode := "Strict",
    input_format := "Python & JSON",
    condition := some "Input should be a valid pattern.",
    core_schemas := some ["core_schema.PlainValidatorFunctionSchema"] },
  { field_type := .ty "Pattern",
    input_type := .ty "bytes",
    mode := "Strict",
    input_format := "Python",
    condition := some "Input should be a valid pattern.",
    core_schemas := some ["core_schema.PlainValidatorFunctionSchema"] },
  { field_type := .ty "IPv4Address",
    input_type := .ty "IPv4Address",
    mode := "Strict",
    input_format := "Python",
    core_schemas := some ["core_schema.IsInstanceSchema"] },
  { field_type := .ty "IPv4Address",
    input_type := .ty "IPv4Interface",
    mode := "Strict",
    input_format := "Python",
    core_schemas := some ["core_schema.IsInstanceSchema"] },
  { field_type := .ty "IPv4Address",
    input_type := .ty "str",
    mode := "Strict",
    input_format := "JSON",
    core_schemas := some ["core_schema.AfterValidatorFunctionSchema"] },
  { field_type := .ty "IPv4Address",
    input_type := .ty "str",
    mode := "Lax",
    input_format := "Python & JSON",
    core_schemas := some ["core_schema.PlainValidatorFunctionSchema"] },
  { field_type := .ty "IPv4Address",
    input_type := .ty "bytes",
    mode := "Lax",
    input_format := "Python",
    valid_examples := some [.bytes [0, 0, 0, 0]],
    core_schemas := some ["core_schema.PlainValidatorFunctionSchema"] },
  { field_type := .ty "IPv4Address",
    input_type := .ty "int",
    mode := "Lax",
    input_format := "Python",
    condition := some "integer representing the IP address, should be less than `2**32`",
    valid_examples := some [.int 168430090],
    core_schemas := some ["core_schema.PlainValidatorFunctionSchema"] },
  { field_type := .ty "IPv4Interface",
    input_type := .ty "IPv4Interface",
    mode := "Strict",
    input_format := "Python",
    core_schemas := some ["core_schema.IsInstanceSchema"] },
  { field_type := .ty "IPv4Interface",
    input_type := .ty "str",
    mode := "Strict",
    input_format := "JSON",
    core_schemas := some ["core_schema.AfterValidatorFunctionSchema"] },
  { field_type := .ty "IPv4Interface",
    input_type := .ty "IPv4Address",
    mode := "Lax",
    input_format := "Python & JSON",
    core_schemas := some ["core_schema.PlainValidatorFunctionSchema"] },
  { field_type := .ty "IPv4Interface",
    input_type := .ty "str",
    mode := "Lax",
    input_format := "Python & JSON",
    core_schemas := some ["core_schema.PlainValidatorFunctionSchema"] },
  { field_type := .ty "IPv4Interface",
    input_type := .ty "bytes",
    mode := "Lax",
    input_format := "Python",
    valid_examples := some [.bytes [255, 255, 255, 255]],
    core_schemas := some ["core_schema.PlainValidatorFunctionSchema"] },
  { field_type := .ty "IPv4Interface",
    input_type := .ty "tuple",
    mode := "Lax",
    input_format := "Python",
    valid_examples := some [.pair (.str "192.168.0.1") (.str "24")],
    core_schemas := some ["core_schema.PlainValidatorFunctionSchema"] },
  { field_type := .ty "IPv4Interface",
    input_type := .ty "int",
    mode := "Lax",
    input_format := "Python",
    condition := some "integer representing the IP address, should be less than `2**32`",
    valid_examples := some [.int 168430090],
    core_schemas := some ["core_schema.PlainValidatorFunctionSchema"] },
  { field_type := .ty "IPv4Network",
    input_type := .ty "IPv4Network",
    mode := "Strict",
    input_format := "Python",
    core_schemas := some ["core_schema.IsInstanceSchema"] },
  { field_type := .ty "IPv4Network",
    input_type := .ty "str",
    mode := "Strict",
    input_format := "JSON",
    core_schemas := some ["core_schema.AfterValidatorFunctionSchema"] },
  { field_type := .ty "IPv4Network",
    input_type := .ty "IPv4Address",
    mode := "Lax",
    input_format := "Python & JSON",
    core_schemas := some ["core_schema.PlainValidatorFunctionSchema"] },
  { field_type := .ty "IPv4Network",
    input_type := .ty "IPv4Interface",
    mode := "Lax",
    input_format := "Python & JSON",
    core_schemas := some ["core_schema.PlainValidatorFunctionSchema"] }
]

/-- Rows 144 to 167 of the source `table` literal (0-based, source order). -/
def tablePart7 : List Row := [
  { field_type := .ty "IPv4Network",
    input_type := .ty "str",
    mode := "Lax",
    input_format := "Python & JSON",
    core_schemas := some ["core_schema.PlainValidatorFunctionSchema"] },
  { field_type := .ty "IPv4Network",
    input_type := .ty "bytes",
    mode := "Lax",
    input_format := "Python",
    valid_examples := some [.bytes [255, 255, 255, 255]],
    core_schemas := some ["core_schema.PlainValidatorFunctionSchema"] },
  { field_type := .ty "IPv4Network",
    input_type := .ty "int",
    mode := "Lax",
    input_format := "Python",
    condition := some "integer representing the IP network, should be less than `2**32`",
    valid_examples := some [.int 168430090],
    core_schemas := some ["core_schema.PlainValidatorFunctionSchema"] },
  { field_type := .ty "IPv6Address",
    input_type := .ty "IPv6Address",
    mode := "Strict",
    input_format := "Python",
    core_schemas := some ["core_schema.IsInstanceSchema"] },
  { field_type := .ty "IPv6Address",
    input_type := .ty "IPv6Interface",
    mode := "Strict",
    input_format := "Python",
    core_schemas := some ["core_schema.IsInstanceSchema"] },
  { field_type := .ty "IPv6Address",
    input_type := .ty "str",
    mode := "Strict",
    input_format := "JSON",
    core_schemas := some ["core_schema.AfterValidatorFunctionSchema"] },
  { field_type := .ty "IPv6Address",
    input_type := .ty "str",
    mode := "Lax",
    input_format := "Python & JSON",
    core_schemas := some ["core_schema.PlainValidatorFunctionSchema"] },
  { field_type := .ty "IPv6Address",
    input_type := .ty "bytes",
    mode := "Lax",
    input_format := "Python",
    valid_examples := some [.bytes [0, 0, 0, 0, 0, 0, 0, 0, 0, 0, 0, 1, 0, 0, 0, 1]],
    core_schemas := some ["core_schema.PlainValidatorFunctionSchema"] },
  { field_type := .ty "IPv6Address",
    input_type := .ty "int",
    mode := "Lax",
    input_format := "Python",
    condition := some "integer representing the IP address, should be less than `2**128`",
    valid_examples := some [.int 340282366920938463463374607431768211455],
    core_schemas := some ["core_schema.PlainValidatorFunctionSchema"] },
  { field_type := .ty "IPv6Interface",
    input_type := .ty "IPv6Interface",
    mode := "Strict",
    input_format := "Python",
    core_schemas := some ["core_schema.IsInstanceSchema"] },
  { field_type := .ty "IPv6Interface",
    input_type := .ty "str",
    mode := "Strict",
    input_format := "JSON",
    core_schemas := some ["core_schema.AfterValidatorFunctionSchema"] },
  { field_type := .ty "IPv6Interface",
    input_type := .ty "IPv6Address",
    mode := "Lax",
    input_format := "Python & JSON",
    core_schemas := some ["core_schema.PlainValidatorFunctionSchema"] },
  { field_type := .ty "IPv6Interface",
    input_type := .ty "str",
    mode := "Lax",
    input_format := "Python & JSON",
    core_schemas := some ["core_schema.PlainValidatorFunctionSchema"] },
  { field_type := .ty "IPv6Interface",
    input_type := .ty "bytes",
    mode := "Lax",
    input_format := "Python",
    valid_examples := some [.bytes [0, 0, 0, 0, 0, 0, 0, 0, 0, 0, 0, 1, 0, 0, 0, 1]],
    core_schemas := some ["core_schema.PlainValidatorFunctionSchema"] },
  { field_type := .ty "IPv6Interface",
    input_type := .ty "tuple",
    mode := "Lax",
    input_format := "Python",
    valid_examples := some [.pair (.str "2001:db00::1") (.str "120")],
    core_schemas := some ["core_schema.PlainValidatorFunctionSchema"] },
  { field_type := .ty "IPv6Interface",
    input_type := .ty "int",
    mode := "Lax",
    input_format := "Python",
    condition := some "integer representing the IP address, should be less than `2**128`",
    valid_examples := some [.int 340282366920938463463374607431768211455],
    core_schemas := some ["core_schema.PlainValidatorFunctionSchema"] },
  { field_type := .ty "IPv6Network",
    input_type := .ty "IPv6Network",
    mode := "Strict",
    input_format := "Python",
    core_schemas := some ["core_schema.IsInstanceSchema"] },
  { field_type := .ty "IPv6Network",
    input_type := .ty "str",
    mode := "Strict",
    input_format := "JSON",
    core_schemas := some ["core_schema.AfterValidatorFunctionSchema"] },
  { field_type := .ty "IPv6Network",
    input_type := .ty "IPv6Address",
    mode := "Lax",
    input_format := "Python & JSON",
    core_schemas := some ["core_schema.PlainValidatorFunctionSchema"] },
  { field_type := .ty "IPv6Network",
    input_type := .ty "IPv6Interface",
    mode := "Lax",
    input_format := "Python & JSON",
    core_schemas := some ["core_schema.PlainValidatorFunctionSchema"] },
  { field_type := .ty "IPv6Network",
    input_type := .ty "str",
    mode := "Lax",
    input_format := "Python & JSON",
    core_schemas := some ["core_schema.PlainValidatorFunctionSchema"] },
  { field_type := .ty "IPv6Network",
    input_type := .ty "bytes",
    mode := "Lax",
    input_format := "Python",
    valid_examples := some [.bytes [0, 0, 0, 0, 0, 0, 0, 0, 0, 0, 0, 1, 0, 0, 0, 1]],
    core_schemas := some ["core_schema.PlainValidatorFunctionSchema"] },
  { field_type := .ty "IPv6Network",
    input_type := .ty "int",
    mode := "Lax",
    input_format := "Python",
    condition := some "integer representing the IP address, should be less than `2**128`",
    valid_examples := some [.int 340282366920938463463374607431768211455],
    core_schemas := some ["core_schema.PlainValidatorFunctionSchema"] },
  { field_type := .ty "Enum",
    input_type := .ty "Enum",
    mode := "Strict",
    input_format := "Python",
    core_schemas := some ["core_schema.IsInstanceSchema"] }
]

/-- Rows 168 to 189 of the source `table` literal (0-based, source order). -/
def tablePart8 : List Row := [
  { field_type := .ty "Enum",
    input_type := .ty "Any",
    mode := "Strict",
    input_format := "JSON",
    condition := some "Input value should be convertible to enum values.",
    core_schemas := some ["core_schema.PlainValidatorFunctionSchema"] },
  { field_type := .ty "Enum",
    input_type := .ty "Any",
    mode := "Lax",
    input_format := "Python",
    condition := some "Input value should be convertible to enum values.",
    core_schemas := some ["core_schema.PlainValidatorFunctionSchema"] },
  { field_type := .ty "IntEnum",
    input_type := .ty "IntEnum",
    mode := "Strict",
    input_format := "Python",
    core_schemas := some ["core_schema.IsInstanceSchema"] },
  { field_type := .ty "IntEnum",
    input_type := .ty "Any",
    mode := "Strict",
    input_format := "JSON",
    condition := some "Input value should be convertible to enum values.",
    core_schemas := some ["core_schema.PlainValidatorFunctionSchema"] },
  { field_type := .ty "IntEnum",
    input_type := .ty "Any",
    mode := "Lax",
    input_format := "Python",
    condition := some "Input value should be convertible to enum values.",
    core_schemas := some ["core_schema.PlainValidatorFunctionSchema"] },
  { field_type := .ty "Decimal",
    input_type := .ty "Decimal",
    mode := "Strict",
    input_format := "Python",
    core_schemas := some ["core_schema.CustomErrorSchema"] },
  { field_type := .ty "Decimal",
    input_type := .ty "int",
    mode := "Strict",
    input_format := "JSON",
    core_schemas := some ["core_schema.CustomErrorSchema"] },
  { field_type := .ty "Decimal",
    input_type := .ty "str",
    mode := "Strict",
    input_format := "JSON",
    core_schemas := some ["core_schema.CustomErrorSchema"] },
  { field_type := .ty "Decimal",
    input_type := .ty "float",
    mode := "Strict",
    input_format := "JSON",
    core_schemas := some ["core_schema.CustomErrorSchema"] },
  { field_type := .ty "Decimal",
    input_type := .ty "int",
    mode := "Lax",
    input_format := "Python & JSON",
    core_schemas := some ["core_schema.AfterValidatorFunctionSchema"] },
  { field_type := .ty "Decimal",
    input_type := .ty "str",
    mode := "Lax",
    input_format := "Python & JSON",
    condition := some "Must match `[0-9]+(\\.[0-9]+)?`.",
    valid_examples := some [.str "3.141"],
    invalid_examples := some [.str "test", .str "3.141x"],
    core_schemas := some ["core_schema.AfterValidatorFunctionSchema"] },
  { field_type := .ty "Decimal",
    input_type := .ty "float",
    mode := "Lax",
    input_format := "Python & JSON",
    core_schemas := some ["core_schema.AfterValidatorFunctionSchema"] },
  { field_type := .ty "Path",
    input_type := .ty "Path",
    mode := "Strict",
    input_format := "Python",
    core_schemas := some ["core_schema.IsInstanceSchema"] },
  { field_type := .ty "Path",
    input_type := .ty "str",
    mode := "Strict",
    input_format := "JSON",
    core_schemas := some ["core_schema.AfterValidatorFunctionSchema"] },
  { field_type := .ty "Path",
    input_type := .ty "str",
    mode := "Lax",
    input_format := "Python",
    core_schemas := some ["core_schema.AfterValidatorFunctionSchema"] },
  { field_type := .ty "UUID",
    input_type := .ty "UUID",
    mode := "Strict",
    input_format := "Python",
    core_schemas := some ["core_schema.IsInstanceSchema"] },
  { field_type := .ty "UUID",
    input_type := .ty "str",
    mode := "Strict",
    input_format := "JSON",
    core_schemas := some ["core_schema.AfterValidatorFunctionSchema"] },
  { field_type := .ty "UUID",
    input_type := .ty "str",
    mode := "Lax",
    input_format := "Python",
    valid_examples := some [.str "\x7b12345678-1234-5678-1234-567812345678\x7d"],
    core_schemas := some ["core_schema.AfterValidatorFunctionSchema"] },
  { field_type := .ty "ByteSize",
    input_type := .ty "str",
    mode := "Strict",
    input_format := "Python & JSON",
    valid_examples := some [.str "1.2", .str "1.5 KB", .str "6.2EiB"],
    core_schemas := some ["core_schema.PlainValidatorFunctionSchema"] },
  { field_type := .ty "ByteSize",
    input_type := .ty "int",
    mode := "Strict",
    input_format := "Python & JSON",
    core_schemas := some ["core_schema.PlainValidatorFunctionSchema"] },
  { field_type := .ty "ByteSize",
    input_type := .ty "float",
    mode := "Strict",
    input_format := "Python & JSON",
    core_schemas := some ["core_schema.PlainValidatorFunctionSchema"] },
  { field_type := .ty "ByteSize",
    input_type := .ty "Decimal",
    mode := "Strict",
    input_format := "Python",
    core_schemas := some ["core_schema.PlainValidatorFunctionSchema"] }
]

/-- The `table` literal of the source: the full conversion catalog,
one `Row` per `Row(...)` literal, in source order, split into parts
only to keep elaboration fast. -/
def table : List Row :=
  tablePart1 ++ tablePart2 ++ tablePart3 ++ tablePart4 ++ tablePart5 ++ tablePart6 ++ tablePart7 ++ tablePart8

end ConversionTable
namespace ConversionTable

/-!
## Spec-level operations

The excerpted source holds only the `Row` dataclass and the `table` data.
The spec additionally describes a `load` constructor, a query layer and a
renderer around this data; they do not appear in the source file and are
modelled from the spec below.
-/

/-- Modelled from the spec: `SchemaError`, the fatal error raised at `load`
when the catalog is structurally malformed (spec section 7).  The source
excerpt contains no such class. -/
structure SchemaError where
  message : String
deriving DecidableEq

/-- Whether the string `s` occurs in the list `l`. -/
def memStr (s : String) (l : List String) : Bool := l.any (fun t => t == s)

/-- A row whose every field is empty, used as the out-of-range default for
indexed access to the table. -/
def emptyRow : Row :=
  { field_type := .ty "", input_type := .ty "", mode := "", input_format := "" }

/-- Modelled from the spec: the structural invariant `load` checks on one
entry — non-empty `target_type`, `mode` within its enumeration, `channel`
within its enumeration (spec section 4.1).  The example-shape compatibility
check the spec also lists is not modelled here; no claim depends on it. -/
def rowStructurallyValid (r : Row) : Bool :=
  (!(r.field_type.text == "")) && memStr r.mode modeLiterals
    && memStr r.input_format formatLiterals

/-- Modelled from the spec: `load(entries) -> Catalog`, the all-or-nothing
constructor that fails with `SchemaError` if any entry violates a structural
invariant (spec sections 4.1 and 7).  The source excerpt contains no loader. -/
def load (entries : List Row) : Except SchemaError (List Row) :=
  if entries.all rowStructurallyValid then .ok entries
  else .error { message := "structural invariant violated" }

/-- Modelled from the spec: `all()` — the catalog entries in authoring
order (spec section 4.1). -/
def allEntries (catalog : List Row) : List Row := catalog

/-- Modelled from the spec: `by_mode(mode)` — the entries whose mode equals
the given one, preserving catalog order (spec section 4.2). -/
def by_mode (m : String) (catalog : List Row) : List Row :=
  catalog.filter (fun r => r.mode == m)

/-- Modelled from the spec: rendering of an optional field as an explicit
empty marker when absent (spec section 4.3). -/
def renderOpt : Option String → String
  | none => ""
  | some s => s

/-- Modelled from the spec: escaping of the column-delimiter character so
that downstream markup stays well-formed (spec section 4.3). -/
def escapeCell (s : String) : String := s.replace "|" "\\|"

/-- Modelled from the spec: the cells of one rendered row, in the fixed
column order target_type, input_representation, mode, channel, condition,
implementing_schema_kinds (spec section 4.3).  Example lists are rendered
as a separate optional block, not as inline columns. -/
def renderRow (r : Row) : List String :=
  [escapeCell r.field_type.text,
   escapeCell r.input_type.text,
   escapeCell r.mode,
   escapeCell r.input_format,
   escapeCell (renderOpt r.condition),
   escapeCell (String.intercalate ", " (r.core_schemas.getD []))]

/-- Modelled from the spec: `render_table(entries)` — one row of cells per
entry, in order (spec section 4.3). -/
def render_table (entries : List Row) : List (List String) :=
  entries.map renderRow

end ConversionTable
namespace ConversionTable

/-- C1: Every Entry in a loaded Catalog has `mode` in {Strict, Lax} and
`channel` in {Python, JSON, Python & JSON}, and loading an out-of-enum entry
fails with `SchemaError` — but the source table itself violates this: its
row 96 (source lines 836-842, `Row(deque, 'Array', 'Strict', 'Json', ...)`)
carries the channel spelling `Json`, outside the `Literal` enumeration the
`Row` dataclass itself declares, so loading the authored table fails. -/
theorem loaded_mode_channel_in_enum_code_bug :
    (table.getD 96 emptyRow).input_format = "Json" ∧
    memStr "Json" formatLiterals = false ∧
    (∃ r ∈ table, memStr r.input_format formatLiterals = false) ∧
    load table = Except.error { message := "structural invariant violated" } := by
  refine ⟨by decide, by decide, by decide, ?_⟩
  rfl

/-- C2: `load` fails with `SchemaError` whenever some entry's `target_type`
is empty, and every entry of a successfully loaded catalog has a non-empty
`target_type`. -/
theorem loaded_target_type_nonempty :
    (∀ entries catalog, load entries = Except.ok catalog →
      ∀ r ∈ catalog, r.field_type.text ≠ "") ∧
    (∀ entries : List Row, (∃ r ∈ entries, r.field_type.text = "") →
      ∃ e, load entries = Except.error e) := by
  constructor
  · intro entries catalog hok r hr
    unfold load at hok
    by_cases hall : entries.all rowStructurallyValid = true
    · rw [if_pos hall] at hok
      cases hok
      have hv := List.all_eq_true.mp hall r hr
      unfold rowStructurallyValid at hv
      simp only [Bool.and_eq_true, Bool.not_eq_true', beq_eq_false_iff_ne, ne_eq] at hv
      exact hv.1.1
    · rw [if_neg hall] at hok
      cases hok
  · intro entries h
    obtain ⟨r, hr, hempty⟩ := h
    refine ⟨{ message := "structural invariant violated" }, ?_⟩
    unfold load
    rw [if_neg]
    intro hall
    have hv := List.all_eq_true.mp hall r hr
    unfold rowStructurallyValid at hv
    simp only [Bool.and_eq_true, Bool.not_eq_true', beq_eq_false_iff_ne, ne_eq] at hv
    exact hv.1.1 hempty

/-- Witness for C2 at a concrete input: a catalog with an empty
`target_type` is rejected by `load`. -/
theorem loaded_target_type_nonempty_witness :
    ∃ e, load [emptyRow] = Except.error e :=
  loaded_target_type_nonempty.2 [emptyRow] ⟨emptyRow, by decide, by decide⟩

/-- C9: every row of the table provides `core_schemas`, and the list
provided is non-empty. -/
theorem core_schemas_present_nonempty :
    ∀ r ∈ table, r.core_schemas ≠ none ∧
      ∀ cs, r.core_schemas = some cs → cs ≠ [] := by
  have h : table.all (fun r =>
      match r.core_schemas with
      | some cs => !cs.isEmpty
      | none => false) = true := by decide
  intro r hr
  have hv := List.all_eq_true.mp h r hr
  constructor
  · intro hnone
    rw [hnone] at hv
    simp at hv
  · intro cs hcs
    rw [hcs] at hv
    simp only [Bool.not_eq_true'] at hv
    exact List.isEmpty_eq_false_iff_exists_mem.mp hv |>.elim fun x hx => by
      intro hnil
      rw [hnil] at hx
      cases hx

/-- Witness for C9 at a concrete input: row 0 of the table. -/
theorem core_schemas_present_nonempty_witness :
    (table.getD 0 emptyRow).core_schemas ≠ none ∧
      ∀ cs, (table.getD 0 emptyRow).core_schemas = some cs → cs ≠ [] :=
  core_schemas_present_nonempty (table.getD 0 emptyRow) (by decide)

/-- C10: the catalog distinguishes a present-but-empty example list from an
absent one: the `dict`-from-`Mapping` and `TypedDict`-from-`Mapping` rows
carry `valid_examples = some []`, while rows documenting no examples carry
`none`. -/
theorem empty_examples_distinct_from_absent :
    (∃ r ∈ table, r.field_type = .ty "dict" ∧ r.input_type = .ty "Mapping" ∧
      r.valid_examples = some []) ∧
    (∃ r ∈ table, r.field_type = .ty "TypedDict" ∧ r.input_type = .ty "Mapping" ∧
      r.valid_examples = some []) ∧
    (∃ r ∈ table, r.valid_examples = none) := by
  refine ⟨⟨table.getD 54 emptyRow, by decide, by decide, by decide, by decide⟩,
    ⟨table.getD 58 emptyRow, by decide, by decide, by decide, by decide⟩,
    ⟨table.getD 0 emptyRow, by decide, by decide⟩⟩

end ConversionTable
namespace ConversionTable

/-- Whether a row's two example lists, when both present, share no value
under Python equality. -/
def examplesDisjoint (r : Row) : Bool :=
  match r.valid_examples, r.invalid_examples with
  | some vl, some il =>
      vl.all (fun v => !(pyMem v il)) && il.all (fun v => !(pyMem v vl))
  | _, _ => true

/-- C3: for every row of the table with both example lists present, no value
of `valid_examples` occurs in `invalid_examples` and vice versa (membership
taken under Python equality `pyEq`). -/
theorem valid_invalid_examples_disjoint :
    ∀ r ∈ table, ∀ vl il, r.valid_examples = some vl →
      r.invalid_examples = some il →
      (∀ v ∈ vl, pyMem v il = false) ∧ (∀ v ∈ il, pyMem v vl = false) := by
  have h : table.all examplesDisjoint = true := by decide
  intro r hr vl il hv hi
  have hd := List.all_eq_true.mp h r hr
  unfold examplesDisjoint at hd
  rw [hv, hi] at hd
  simp only [Bool.and_eq_true, List.all_eq_true, Bool.not_eq_true'] at hd
  exact hd

/-- Witness for C3 at a concrete input: row 1 of the table (`str` coerced
from `bytes`), whose two example lists are both present. -/
theorem valid_invalid_examples_disjoint_witness :
    (∀ v ∈ [Value.bytes (ascii "this is bytes")],
      pyMem v [Value.bytes [129]] = false) ∧
    (∀ v ∈ [Value.bytes [129]],
      pyMem v [Value.bytes (ascii "this is bytes")] = false) :=
  valid_invalid_examples_disjoint (table.getD 1 emptyRow) (by decide)
    [Value.bytes (ascii "this is bytes")] [Value.bytes [129]]
    (by decide) (by decide)

/-- Whether two rows document the same target type, input representation and
channel. -/
def sameKey (r s : Row) : Bool :=
  r.field_type == s.field_type && r.input_type == s.input_type
    && r.input_format == s.input_format

/-- Whether no valid example of `r` occurs among the invalid examples of `s`
(under Python equality), when both lists are present. -/
def noCrossClash (r s : Row) : Bool :=
  match r.valid_examples, s.invalid_examples with
  | some vl, some il => vl.all (fun v => !(pyMem v il))
  | _, _ => true

set_option maxRecDepth 40000 in
/-- C5: within one target type, the documented combinations do not
contradict each other: no value occurs in the `valid_examples` of one row
and in the `invalid_examples` of another row sharing the same `field_type`,
`input_type` and `input_format`. -/
theorem no_contradictory_examples_same_key :
    ∀ r ∈ table, ∀ s ∈ table, sameKey r s = true →
      ∀ vl il, r.valid_examples = some vl → s.invalid_examples = some il →
      ∀ v ∈ vl, pyMem v il = false := by
  have h : table.all (fun r => table.all
      (fun s => !(sameKey r s) || noCrossClash r s)) = true := by decide
  intro r hr s hs hkey vl il hv hi v hvmem
  have hrow := List.all_eq_true.mp (List.all_eq_true.mp h r hr) s hs
  rw [Bool.or_eq_true] at hrow
  rcases hrow with hneg | hcl
  · rw [Bool.not_eq_true'] at hneg
    rw [hkey] at hneg
    cases hneg
  · unfold noCrossClash at hcl
    rw [hv, hi] at hcl
    have := List.all_eq_true.mp hcl v hvmem
    rwa [Bool.not_eq_true'] at this

/-- Witness for C5 at a concrete input: row 1 against itself (a row is
`sameKey`-related to itself, and its lists are both present). -/
theorem no_contradictory_examples_same_key_witness :
    pyMem (Value.bytes (ascii "this is bytes")) [Value.bytes [129]] = false :=
  no_contradictory_examples_same_key (table.getD 1 emptyRow) (by decide)
    (table.getD 1 emptyRow) (by decide) (by decide)
    [Value.bytes (ascii "this is bytes")] [Value.bytes [129]]
    (by decide) (by decide)
    (Value.bytes (ascii "this is bytes")) (by decide)

end ConversionTable
namespace ConversionTable

/-- Formalisation of the spec's "expressible in text/JSON" (spec section 3):
the JSON-primitive type references among those occurring in the table;
string markers (`Array`, `Object`, `-`, ...) are structural wire shapes and
count as expressible.  Native-only object types (bytes, bytearray, Decimal,
IP objects, dates, containers, ...) are not. -/
def wireExpressible : TypeRef → Bool
  | .ty name => memStr name ["str", "int", "float", "bool", "None", "Any"]
  | .marker _ => true

/-- The channels that include the wire (JSON) channel, under the spellings
the claim names (`JSON` and `Python & JSON`). -/
def includesWire (fmt : String) : Bool := fmt == "JSON" || fmt == "Python & JSON"

/-- The native IP-object input types the table documents on the
`Python & JSON` channel. -/
def ipObjectTypes : List String :=
  ["IPv4Address", "IPv4Interface", "IPv6Address", "IPv6Interface"]

/-- C6 counterexample: row 135 of the table (`IPv4Interface` coerced from a
native `IPv4Address` object) sits on the `Python & JSON` channel with a
native-only input representation and no condition, so the claim that every
wire-channel entry has a text/JSON-expressible input representation (unless
its condition states an encoding) fails on the table. -/
theorem wire_entries_expressible_counterexample :
    ((table.getD 135 emptyRow).field_type = .ty "IPv4Interface" ∧
     (table.getD 135 emptyRow).input_type = .ty "IPv4Address" ∧
     (table.getD 135 emptyRow).input_format = "Python & JSON" ∧
     (table.getD 135 emptyRow).condition = none) ∧
    ¬ (∀ r ∈ table, includesWire r.input_format = true →
        wireExpressible r.input_type = true ∨ r.condition ≠ none) := by
  constructor
  · exact ⟨by decide, by decide, by decide, by decide⟩
  · intro h
    rcases h (table.getD 135 emptyRow) (by decide) (by decide) with h1 | h2
    · exact absurd h1 (by decide)
    · exact h2 (by decide)

set_option maxRecDepth 40000 in
/-- C6 (amended): every entry whose channel includes the wire channel has an
input representation expressible in text/JSON, except the entries whose
input is a native IP address/interface object (`IPv4Address`,
`IPv4Interface`, `IPv6Address`, `IPv6Interface`) on the `Python & JSON`
channel; in particular no wire-channel entry uses `bytes`, `bytearray` or
`Decimal`. -/
theorem wire_entries_expressible_amended :
    ∀ r ∈ table, includesWire r.input_format = true →
      (wireExpressible r.input_type = true ∨
        memStr r.input_type.text ipObjectTypes = true) ∧
      memStr r.input_type.text ["bytes", "bytearray", "Decimal"] = false := by
  decide

/-- Witness for the amended C6 at a concrete input: row 0 of the table
(`str` from `str` on `Python & JSON`). -/
theorem wire_entries_expressible_amended_witness :
    (wireExpressible (table.getD 0 emptyRow).input_type = true ∨
      memStr (table.getD 0 emptyRow).input_type.text ipObjectTypes = true) ∧
    memStr (table.getD 0 emptyRow).input_type.text
      ["bytes", "bytearray", "Decimal"] = false :=
  wire_entries_expressible_amended (table.getD 0 emptyRow) (by decide) (by decide)

/-- A structurally valid row's mode is one of the two annotated literals. -/
theorem mode_of_structurally_valid (r : Row)
    (h : rowStructurallyValid r = true) : r.mode = "Lax" ∨ r.mode = "Strict" := by
  unfold rowStructurallyValid at h
  simp only [Bool.and_eq_true] at h
  have hm := h.1.2
  unfold memStr modeLiterals at hm
  simp only [List.any_cons, List.any_nil, Bool.or_eq_true, beq_iff_eq] at hm
  rcases hm with h1 | h2 | h3
  · exact Or.inl h1.symm
  · exact Or.inr h2.symm
  · cases h3

/-- C7: over any successfully loaded catalog, filtering by mode `Strict` and
by mode `Lax` yields two disjoint sets of entries whose union, as sets, is
exactly the set of entries of `all()`. -/
theorem by_mode_partitions :
    ∀ entries catalog, load entries = Except.ok catalog →
      (∀ r, r ∈ allEntries catalog ↔
        (r ∈ by_mode "Strict" catalog ∨ r ∈ by_mode "Lax" catalog)) ∧
      (∀ r, ¬ (r ∈ by_mode "Strict" catalog ∧ r ∈ by_mode "Lax" catalog)) := by
  intro entries catalog hok
  have hpair : catalog = entries ∧ entries.all rowStructurallyValid = true := by
    unfold load at hok
    by_cases hall : entries.all rowStructurallyValid = true
    · rw [if_pos hall] at hok
      cases hok
      exact ⟨rfl, hall⟩
    · rw [if_neg hall] at hok
      cases hok
  obtain ⟨hceq, hall⟩ := hpair
  subst hceq
  constructor
  · intro r
    constructor
    · intro hr
      have hv := List.all_eq_true.mp hall r hr
      rcases mode_of_structurally_valid r hv with hm | hm
      · exact Or.inr (List.mem_filter.mpr ⟨hr, by rw [hm]; decide⟩)
      · exact Or.inl (List.mem_filter.mpr ⟨hr, by rw [hm]; decide⟩)
    · intro hr
      rcases hr with hs | hs
      · exact (List.mem_filter.mp hs).1
      · exact (List.mem_filter.mp hs).1
  · intro r hcontra
    have h1 := (List.mem_filter.mp hcontra.1).2
    have h2 := (List.mem_filter.mp hcontra.2).2
    rw [beq_iff_eq] at h1 h2
    rw [h1] at h2
    exact absurd h2 (by decide)

/-- Witness for C7 at a concrete input: the first chunk of the authored
table (rows 0 to 23) loads successfully and is partitioned by mode. -/
theorem by_mode_partitions_witness :
    (∀ r, r ∈ allEntries tablePart1 ↔
      (r ∈ by_mode "Strict" tablePart1 ∨ r ∈ by_mode "Lax" tablePart1)) ∧
    (∀ r, ¬ (r ∈ by_mode "Strict" tablePart1 ∧ r ∈ by_mode "Lax" tablePart1)) :=
  by_mode_partitions tablePart1 tablePart1 (by rfl)

/-- C8: `render_table` yields exactly one row per entry, and every rendered
row has exactly 6 cells, in the fixed column order of `renderRow`. -/
theorem render_table_rectangular :
    ∀ entries : List Row, entries ≠ [] →
      (render_table entries).length = entries.length ∧
      ∀ cells ∈ render_table entries, cells.length = 6 := by
  intro entries hne
  constructor
  · exact List.length_map entries renderRow
  · intro cells hc
    unfold render_table at hc
    obtain ⟨r, hr, hcells⟩ := List.mem_map.mp hc
    rw [← hcells]
    rfl

/-- Witness for C8 at a concrete input: the full authored table. -/
theorem render_table_rectangular_witness :
    (render_table table).length = table.length ∧
    ∀ cells ∈ render_table table, cells.length = 6 :=
  render_table_rectangular table (by decide)

end ConversionTable
namespace ConversionTable

/-- The `field_type` of the i-th table row (0-based). -/
def tft (i : Nat) : TypeRef := (table.getD i emptyRow).field_type

set_option maxRecDepth 100000 in
/-- C4: the table is grouped by target type: whenever two rows carry the
same `field_type`, every row between them carries it too — no two rows with
equal target type are separated by a row with a different one. -/
theorem grouped_by_target_contiguous :
    ∀ i j k, i < j → j < k → k < table.length → tft i = tft k → tft j = tft i := by
  have hlen : table.length = 190 := by decide
  have step : ∀ k, k < 190 → ∀ i, i < k → tft i = tft k → tft (i + 1) = tft i := by decide
  have main : ∀ d i k, i + d + 1 < k + 1 → k < 190 → tft i = tft k →
      tft (i + d + 1) = tft i := by
    intro d
    induction d with
    | zero =>
      intro i k hjk hk hik
      by_cases hik' : i + 1 = k
      · rw [hik', hik]
      · exact step k hk i (by omega) hik
    | succ d ih =>
      intro i k hjk hk hik
      have h1 : tft (i + 1) = tft i := step k hk i (by omega) hik
      have h2 : tft (i + 1 + d + 1) = tft (i + 1) :=
        ih (i + 1) k (by omega) hk (h1.trans hik)
      have harith : i + 1 + d + 1 = i + (d + 1) + 1 := by omega
      rw [harith] at h2
      rw [h2, h1]
  intro i j k hij hjk hk hik
  rw [hlen] at hk
  have hd : j = i + (j - i - 1) + 1 := by omega
  rw [hd]
  exact main (j - i - 1) i k (by omega) hk hik

set_option maxRecDepth 100000 in
/-- Witness for C4 at a concrete input: rows 0, 1, 2 all target `str`. -/
theorem grouped_by_target_contiguous_witness : tft 1 = tft 0 :=
  grouped_by_target_contiguous 0 1 2 (by decide) (by decide) (by decide) (by decide)

end ConversionTable
